import Mathlib

/-!
Verification development for the deltafi-contracts proactive market maker.

The Rust source is shallowly embedded: the fixed-point `Decimal` type
(an unsigned 192-bit integer scaled by `WAD = 10^9`) is modelled as a
`Nat` carrying the scaled value, with every checked operation returning
`Except SwapError Nat` and failing exactly where the corresponding
`checked_*` U192 operation fails (sum or product at or above `2^192`,
subtraction underflow, division by zero, conversions that do not fit the
stated machine width).  Stateful methods on `PoolState` that mutate
`self` before they can fail are embedded as functions returning the pair
of the (possibly partially mutated) state and the result, mirroring the
exact order of field assignments and `?`-propagations in the source.
-/

/-- Scale of the fixed-point representation, from `math/mod.rs`: `WAD = 10^9`. -/
def WAD : Nat := 1000000000

/-- Half of the scale, from `math/mod.rs`. -/
def HALF_WAD : Nat := 500000000

/-- Modulus of the underlying `U192` integer of `Decimal`. -/
def U192_MOD : Nat := 2 ^ 192

/-- Modulus of `u64`. -/
def U64_MOD : Nat := 2 ^ 64

/-- Modulus of `u128`. -/
def U128_MOD : Nat := 2 ^ 128

/-- The error kinds of `error.rs` reachable from the embedded functions
(`SwapError` in the source; errors are converted to `ProgramError` at the
boundary, which the embedding does not distinguish). -/
inductive SwapError where
  | calculationFailure
  | invalidSlope
  | withdrawNotEnough
  | insufficientFunds
  | incorrectMint
  | invalidOracleConfig
  deriving DecidableEq, Repr

/-- Result type of the embedded fallible computations. -/
abbrev Res := Except SwapError Nat

/-- Embedding of `Decimal::try_add`: `checked_add` on U192. -/
def tryAdd (a b : Nat) : Res :=
  if a + b < U192_MOD then .ok (a + b) else .error .calculationFailure

/-- Embedding of `Decimal::try_sub`: `checked_sub` on U192. -/
def trySub (a b : Nat) : Res :=
  if b ≤ a then .ok (a - b) else .error .calculationFailure

/-- Embedding of `Decimal::try_mul(Decimal)`: `checked_mul` on the raw scaled values then
division by `WAD` (the division by the nonzero constant cannot fail). -/
def tryMul (a b : Nat) : Res :=
  if a * b < U192_MOD then .ok (a * b / WAD) else .error .calculationFailure

/-- Embedding of `Decimal::try_mul(u64)`: `checked_mul` by an unscaled integer. -/
def tryMulU (a b : Nat) : Res :=
  if a * b < U192_MOD then .ok (a * b) else .error .calculationFailure

/-- Embedding of `Decimal::try_div(Decimal)`: `checked_mul` by `WAD` then `checked_div`. -/
def tryDiv (a b : Nat) : Res :=
  if U192_MOD ≤ a * WAD then .error .calculationFailure
  else if b = 0 then .error .calculationFailure
  else .ok (a * WAD / b)

/-- Embedding of `Decimal::try_div(u64)`: `checked_div` by an unscaled integer. -/
def tryDivU (a b : Nat) : Res :=
  if b = 0 then .error .calculationFailure else .ok (a / b)

/-- Embedding of `Decimal::try_floor_u64`: divide the scaled value by `WAD` and require
the quotient to fit in a `u64`. -/
def tryFloorU64 (v : Nat) : Res :=
  if v / WAD < U64_MOD then .ok (v / WAD) else .error .calculationFailure

/-- Embedding of `Decimal::try_round_u128`: `(HALF_WAD + v) / WAD`, with the checked
addition and the `u128` conversion both able to fail. -/
def tryRoundU128 (v : Nat) : Res :=
  if U192_MOD ≤ HALF_WAD + v then .error .calculationFailure
  else if U128_MOD ≤ (HALF_WAD + v) / WAD then .error .calculationFailure
  else .ok ((HALF_WAD + v) / WAD)

/-- The bit-by-bit loop of `sqrt` in `math/approximations.rs`: while
`bit ≠ 0`, compare `n` against `result + bit`, update `n` and `result`,
and shift `bit` right by two.  The `fuel` argument makes the recursion
structural; one unit of fuel is consumed per loop iteration (none of the
checked operations inside the loop can fail on unsigned inputs). -/
def sqrtLoop : Nat → Nat → Nat → Nat → Nat
  | 0, _, result, _ => result
  | fuel + 1, n, result, bit =>
    if bit = 0 then result
    else
      let resultWithBit := result + bit
      if resultWithBit ≤ n then
        sqrtLoop fuel (n - resultWithBit) (result / 2 + bit) (bit / 4)
      else
        sqrtLoop fuel n (result / 2) (bit / 4)

/-- Embedding of `sqrt` of `math/approximations.rs` on an unsigned radicand.  The
source starts `bit` at the largest power of four not exceeding the
radicand; every iteration started from a larger power of four leaves
`n` and `result` unchanged (the comparison `result + bit ≤ n` fails and
`result` is still zero), so starting from `4^96 > 2^128 > radicand` with
fuel for all 97 shifts runs exactly the source loop.  The source returns
`Some` for every non-negative input. -/
def intSqrt (radicand : Nat) : Nat :=
  if radicand = 0 then 0 else sqrtLoop 97 radicand 0 (4 ^ 96)

/-- Embedding of `Decimal::sqrt`: the integer square root of the rounded `u128` value,
rescaled through `Decimal::from(u128)` (whose raw product `WAD * r` with
`r < 2^128` stays below `2^192` and cannot overflow). -/
def decSqrt (v : Nat) : Res :=
  Except.bind (tryRoundU128 v) fun r =>
    .ok (WAD * intSqrt r)

/-- Decidable equality on `Except`, used to evaluate the embedded
functions on concrete inputs. -/
instance {ε α : Type} [DecidableEq ε] [DecidableEq α] : DecidableEq (Except ε α)
  | .error e, .error f =>
    if h : e = f then .isTrue (by rw [h]) else .isFalse (by simp [h])
  | .error _, .ok _ => .isFalse (by simp)
  | .ok _, .error _ => .isFalse (by simp)
  | .ok a, .ok b =>
    if h : a = b then .isTrue (by rw [h]) else .isFalse (by simp [h])

/-- Embedding of `Decimal::reciprocal`: `WAD^2 / v`, failing on zero (the checked power
`WAD^2 < 2^192` cannot fail). -/
def reciprocal (v : Nat) : Res :=
  if v = 0 then .error .calculationFailure else .ok (WAD * WAD / v)

/-- Embedding of `Decimal::from(u64)`: scale an integer token amount by `WAD`. -/
def decFrom (n : Nat) : Nat := WAD * n

/-- Embedding of `get_target_amount` of `curve/calc.rs`.  The comparison
`slope.lt(&Decimal::zero())` on the unsigned `Decimal` is always false, so
the slope-range test is `WAD < slope`. -/
def getTargetAmount (targetReserve futureReserve currentReserve marketPrice slope : Nat) : Res :=
  if currentReserve = 0 ∨ futureReserve < currentReserve ∨ targetReserve < futureReserve then
    .error .calculationFailure
  else
    Except.bind (trySub futureReserve currentReserve) fun diff =>
      Except.bind (tryMul diff marketPrice) fun fairAmount =>
        if WAD < slope then .error .invalidSlope
        else if slope = 0 then .ok fairAmount
        else
          Except.bind (tryMul targetReserve targetReserve) fun t2 =>
            Except.bind (tryDiv t2 futureReserve) fun t2f =>
              Except.bind (tryDiv t2f currentReserve) fun penaltyRatio =>
                Except.bind (tryMul penaltyRatio slope) fun penalty =>
                  Except.bind (tryAdd penalty WAD) fun p1 =>
                    Except.bind (trySub p1 slope) fun mult =>
                      tryMul fairAmount mult

/-- The `slope == Decimal::one()` branch of
`get_target_amount_reverse_direction`. -/
def reverseDirectionSlopeOne (targetReserve currentReserve quoteAmount marketPrice fairAmount : Nat) :
    Res :=
  match
    (if fairAmount = 0 then Except.ok 0
     else
       Except.bind (tryMul fairAmount currentReserve) fun fr =>
         Except.bind (tryDiv fr fairAmount) fun probe =>
           if probe = currentReserve then
             Except.bind (tryMul fairAmount currentReserve) fun x =>
               Except.bind (tryDiv x targetReserve) fun y =>
                 tryDiv y targetReserve
           else
             Except.bind (tryMul quoteAmount currentReserve) fun x =>
               Except.bind (tryDiv x targetReserve) fun y =>
                 Except.bind (tryMul y marketPrice) fun z =>
                   tryDiv z targetReserve)
  with
  | .error e => .error e
  | .ok adjustedRatio =>
    Except.bind (tryMul currentReserve adjustedRatio) fun num =>
      Except.bind (tryAdd adjustedRatio WAD) fun den =>
        tryDiv num den

/-- The general (`0 < slope < 1`) branch of
`get_target_amount_reverse_direction`, solving the quadratic. -/
def reverseDirectionGeneral (targetReserve currentReserve slope fairAmount : Nat) :
    Res :=
  Except.bind (tryMul slope targetReserve) fun st =>
    Except.bind (tryDiv st currentReserve) fun stc =>
      Except.bind (tryMul stc targetReserve) fun stct =>
        Except.bind (tryAdd stct fairAmount) fun futureReserve =>
          Except.bind (trySub WAD slope) fun oneMinus =>
            Except.bind (tryMul oneMinus currentReserve) fun adjusted0 =>
              -- `is_smaller` records which side of `future_reserve` we are on
              let isSmaller := adjusted0 < futureReserve
              match
                (if adjusted0 < futureReserve then trySub futureReserve adjusted0
                 else trySub adjusted0 futureReserve)
              with
              | .error e => .error e
              | .ok adjusted1 =>
                Except.bind (tryFloorU64 adjusted1) fun adjFloor =>
                  let adjustedReserve := decFrom adjFloor
                  Except.bind (trySub WAD slope) fun om1 =>
                    Except.bind (tryMulU om1 4) fun om4 =>
                      Except.bind (tryMul om4 slope) fun om4s =>
                        Except.bind (tryMul om4s targetReserve) fun om4st =>
                          Except.bind (tryMul om4st targetReserve) fun sq0 =>
                            Except.bind (tryMul adjustedReserve adjustedReserve) fun adj2 =>
                              Except.bind (tryAdd adj2 sq0) fun rad =>
                                Except.bind (decSqrt rad) fun squareRoot =>
                                  Except.bind (trySub WAD slope) fun om2 =>
                                    Except.bind (tryMulU om2 2) fun denominator =>
                                      match
                                        (if isSmaller then trySub squareRoot adjustedReserve
                                         else tryAdd adjustedReserve squareRoot)
                                      with
                                      | .error e => .error e
                                      | .ok numerator =>
                                        Except.bind (tryDiv numerator denominator) fun candidateReserve =>
                                          if currentReserve < candidateReserve then .ok 0
                                          else trySub currentReserve candidateReserve

/-- Embedding of `get_target_amount_reverse_direction` of `curve/calc.rs`. -/
def getTargetAmountReverseDirection (targetReserve currentReserve quoteAmount marketPrice slope : Nat) :
    Res :=
  if targetReserve = 0 then .error .calculationFailure
  else if quoteAmount = 0 then .ok 0
  else if WAD < slope then .error .invalidSlope
  else
    Except.bind (tryMul quoteAmount marketPrice) fun fairAmount =>
      if slope = 0 then .ok (min fairAmount currentReserve)
      else if slope = WAD then
        reverseDirectionSlopeOne targetReserve currentReserve quoteAmount marketPrice fairAmount
      else
        reverseDirectionGeneral targetReserve currentReserve slope fairAmount

/-- The `square_root` binding of `get_target_reserve`: `1` when the
price offset is zero, otherwise `sqrt(offset·Q/R + 1)` computed through
the overflow-guarded grouping (`offset·Q/offset == Q` detects a lossless
product). -/
def targetReserveSqrt (priceOffset quoteAmount currentReserve : Nat) : Res :=
  if priceOffset = 0 then Except.ok WAD
  else
    Except.bind (tryMul priceOffset quoteAmount) fun pq =>
      Except.bind (tryDiv pq priceOffset) fun probe =>
        if probe = quoteAmount then
          Except.bind (tryMul priceOffset quoteAmount) fun x =>
            Except.bind (tryDiv x currentReserve) fun y =>
              Except.bind (tryAdd y WAD) fun z =>
                decSqrt z
        else
          Except.bind (tryDiv priceOffset currentReserve) fun x =>
            Except.bind (tryMul x quoteAmount) fun y =>
              Except.bind (tryAdd y WAD) fun z =>
                decSqrt z

/-- Embedding of `get_target_reserve` of `curve/calc.rs`. -/
def getTargetReserve (currentReserve quoteAmount marketPrice slope : Nat) : Res :=
  if currentReserve = 0 then .ok 0
  else if slope = 0 then
    Except.bind (tryMul quoteAmount marketPrice) fun fair =>
      tryAdd fair currentReserve
  else if WAD < slope then .error .invalidSlope
  else
    Except.bind (tryMul marketPrice slope) fun ms =>
      Except.bind (tryMulU ms 4) fun priceOffset =>
        Except.bind (targetReserveSqrt priceOffset quoteAmount currentReserve) fun squareRoot =>
          Except.bind (trySub squareRoot WAD) fun d1 =>
            Except.bind (tryDivU d1 2) fun d2 =>
              Except.bind (tryDiv d2 slope) fun d3 =>
                Except.bind (tryAdd d3 WAD) fun premium =>
                  tryMul premium currentReserve

/-- The three-valued multiplier state of `curve/pool.rs`. -/
inductive Multiplier where
  | one
  | aboveOne
  | belowOne
  deriving DecidableEq, Repr

/-- Embedding of `PoolState` of `curve/pool.rs`; the six `Decimal` fields carry scaled
values. -/
structure PoolState where
  marketPrice : Nat
  slope : Nat
  baseTarget : Nat
  quoteTarget : Nat
  baseReserve : Nat
  quoteReserve : Nat
  multiplier : Multiplier
  deriving DecidableEq, Repr

/-- Embedding of `PoolState::adjust_target`.  The single field assignment happens only
after the whole right-hand side has succeeded, so an error leaves the
state unchanged and is propagated. -/
def adjustTarget (s : PoolState) : Except SwapError PoolState :=
  match s.multiplier with
  | .belowOne =>
    Except.bind (trySub s.baseReserve s.baseTarget) fun d =>
      Except.bind (getTargetReserve s.quoteReserve d s.marketPrice s.slope) fun qt =>
        .ok { s with quoteTarget := qt }
  | .aboveOne =>
    Except.bind (trySub s.quoteReserve s.quoteTarget) fun d =>
      Except.bind (reciprocal s.marketPrice) fun rp =>
        Except.bind (getTargetReserve s.baseReserve d rp s.slope) fun bt =>
          .ok { s with baseTarget := bt }
  | .one => .ok s

/-- Embedding of `PoolState::get_mid_price`: adjust the target, then price through the
curve multiplier; returns the adjusted state together with the price. -/
def getMidPrice (s : PoolState) : Except SwapError (PoolState × Nat) :=
  Except.bind (adjustTarget s) fun s =>
    match s.multiplier with
    | .belowOne =>
      Except.bind (tryMul s.quoteTarget s.quoteTarget) fun qq =>
        Except.bind (tryDiv qq s.quoteReserve) fun q1 =>
          Except.bind (tryDiv q1 s.quoteReserve) fun m0 =>
            Except.bind (tryMul m0 s.slope) fun m1 =>
              Except.bind (tryAdd m1 WAD) fun m2 =>
                Except.bind (trySub m2 s.slope) fun m3 =>
                  Except.bind (tryDiv s.marketPrice m3) fun p =>
                    .ok (s, p)
    | _ =>
      Except.bind (tryMul s.baseTarget s.baseTarget) fun bb =>
        Except.bind (tryDiv bb s.baseReserve) fun b1 =>
          Except.bind (tryDiv b1 s.baseReserve) fun m0 =>
            Except.bind (tryMul m0 s.slope) fun m1 =>
              Except.bind (tryAdd m1 WAD) fun m2 =>
                Except.bind (trySub m2 s.slope) fun m3 =>
                  Except.bind (tryMul s.marketPrice m3) fun p =>
                    .ok (s, p)

/-- Embedding of `PoolState::sell_base_token_with_multiplier`; `baseAmount` is a scaled
`Decimal`. -/
def sellBaseTokenWithMultiplier (s : PoolState) (baseAmount : Nat) (m : Multiplier) : Res :=
  match m with
  | .one =>
    getTargetAmountReverseDirection s.quoteTarget s.quoteTarget baseAmount s.marketPrice s.slope
  | .aboveOne =>
    Except.bind (tryAdd s.baseReserve baseAmount) fun future =>
      getTargetAmount s.baseTarget future s.baseReserve s.marketPrice s.slope
  | .belowOne =>
    getTargetAmountReverseDirection s.quoteTarget s.quoteReserve baseAmount s.marketPrice s.slope

/-- Embedding of `PoolState::sell_base_token` (`&self`, no mutation): returns the
floored quote amount and the updated multiplier. -/
def sellBaseToken (s : PoolState) (baseAmount : Nat) : Except SwapError (Nat × Multiplier) :=
  Except.bind
    (match s.multiplier with
     | .one =>
       Except.bind (sellBaseTokenWithMultiplier s (decFrom baseAmount) .one) fun q =>
         .ok (q, Multiplier.belowOne)
     | .belowOne =>
       Except.bind (sellBaseTokenWithMultiplier s (decFrom baseAmount) .belowOne) fun q =>
         .ok (q, Multiplier.belowOne)
     | .aboveOne =>
       Except.bind (trySub s.baseTarget s.baseReserve) fun backToOnePayBase =>
         Except.bind (trySub s.quoteReserve s.quoteTarget) fun backToOneReceiveQuote =>
           -- `back_to_one_pay_base.cmp(&Decimal::from(base_amount))`
           if decFrom baseAmount < backToOnePayBase then
             Except.bind (sellBaseTokenWithMultiplier s (decFrom baseAmount) .aboveOne) fun q =>
               .ok (min q backToOneReceiveQuote, Multiplier.aboveOne)
           else if decFrom baseAmount = backToOnePayBase then
             .ok (backToOneReceiveQuote, Multiplier.one)
           else
             Except.bind (trySub (decFrom baseAmount) backToOnePayBase) fun rest =>
               Except.bind (sellBaseTokenWithMultiplier s rest .one) fun q =>
                 Except.bind (tryAdd q backToOneReceiveQuote) fun q2 =>
                   .ok (q2, Multiplier.belowOne) :
      Except SwapError (Nat × Multiplier))
    fun qm => Except.bind (tryFloorU64 qm.1) fun out => .ok (out, qm.2)

/-- Embedding of `PoolState::sell_quote_token_with_multiplier`. -/
def sellQuoteTokenWithMultiplier (s : PoolState) (quoteAmount : Nat) (m : Multiplier) : Res :=
  match m with
  | .one =>
    Except.bind (reciprocal s.marketPrice) fun rp =>
      getTargetAmountReverseDirection s.baseTarget s.baseTarget quoteAmount rp s.slope
  | .aboveOne =>
    Except.bind (reciprocal s.marketPrice) fun rp =>
      getTargetAmountReverseDirection s.baseTarget s.baseReserve quoteAmount rp s.slope
  | .belowOne =>
    Except.bind (tryAdd s.quoteReserve quoteAmount) fun future =>
      Except.bind (reciprocal s.marketPrice) fun rp =>
        getTargetAmount s.quoteTarget future s.quoteReserve rp s.slope

/-- Embedding of `PoolState::sell_quote_token`. -/
def sellQuoteToken (s : PoolState) (quoteAmount : Nat) : Except SwapError (Nat × Multiplier) :=
  Except.bind
    (match s.multiplier with
     | .one =>
       Except.bind (sellQuoteTokenWithMultiplier s (decFrom quoteAmount) .one) fun b =>
         .ok (b, Multiplier.aboveOne)
     | .aboveOne =>
       Except.bind (sellQuoteTokenWithMultiplier s (decFrom quoteAmount) .aboveOne) fun b =>
         .ok (b, Multiplier.aboveOne)
     | .belowOne =>
       Except.bind (trySub s.quoteTarget s.quoteReserve) fun backToOnePayQuote =>
         Except.bind (trySub s.baseReserve s.baseTarget) fun backToOneReceiveBase =>
           if decFrom quoteAmount < backToOnePayQuote then
             Except.bind (sellQuoteTokenWithMultiplier s (decFrom quoteAmount) .belowOne) fun b =>
               .ok (min b backToOneReceiveBase, Multiplier.belowOne)
           else if decFrom quoteAmount = backToOnePayQuote then
             .ok (backToOneReceiveBase, Multiplier.one)
           else
             Except.bind (trySub (decFrom quoteAmount) backToOnePayQuote) fun rest =>
               Except.bind (sellQuoteTokenWithMultiplier s rest .one) fun b =>
                 Except.bind (tryAdd b backToOneReceiveBase) fun b2 =>
                   .ok (b2, Multiplier.aboveOne) :
      Except SwapError (Nat × Multiplier))
    fun bm => Except.bind (tryFloorU64 bm.1) fun out => .ok (out, bm.2)

/-- Embedding of `PoolState::buy_shares` (`&mut self`): the returned state reflects the
field assignments performed before a failure, in source order
(`base_target`, then `quote_target`, then both reserves). -/
def buyShares (s : PoolState) (baseBalance quoteBalance totalSupply : Nat) :
    PoolState × Res :=
  match trySub (decFrom baseBalance) s.baseReserve with
  | .error e => (s, Except.error e)
  | .ok baseInput =>
    match trySub (decFrom quoteBalance) s.quoteReserve with
    | .error e => (s, Except.error e)
    | .ok _quoteInput =>
      if baseInput = 0 then (s, Except.error .insufficientFunds)
      else if totalSupply = 0 then
        -- case 1: initial supply
        match tryMul s.marketPrice (decFrom baseBalance) with
        | .error e => (s, Except.error e)
        | .ok pb =>
          match (if decFrom quoteBalance < pb then tryDiv (decFrom quoteBalance) s.marketPrice else .ok (decFrom baseBalance)) with
          | .error e => (s, Except.error e)
          | .ok shares =>
            match tryMul shares s.marketPrice with
            | .error e => ({ s with baseTarget := shares }, Except.error e)
            | .ok qt =>
              match tryFloorU64 shares with
              | .error e =>
                ({ s with
                    baseTarget := shares, quoteTarget := qt,
                    baseReserve := decFrom baseBalance, quoteReserve := decFrom quoteBalance }, Except.error e)
              | .ok out =>
                ({ s with
                    baseTarget := shares, quoteTarget := qt,
                    baseReserve := decFrom baseBalance, quoteReserve := decFrom quoteBalance }, Except.ok out)
      else if 0 < s.baseReserve ∧ 0 < s.quoteReserve then
        -- case 2: normal case
        match tryDiv baseInput s.baseReserve with
        | .error e => (s, Except.error e)
        | .ok baseInputRt =>
          match tryDiv _quoteInput s.quoteReserve with
          | .error e => (s, Except.error e)
          | .ok quoteInputRt =>
            match tryMulU (min baseInputRt quoteInputRt) totalSupply with
            | .error e => (s, Except.error e)
            | .ok shares =>
              match tryMul s.baseTarget (min baseInputRt quoteInputRt) with
              | .error e => (s, Except.error e)
              | .ok btInc =>
                match tryAdd btInc s.baseTarget with
                | .error e => (s, Except.error e)
                | .ok bt =>
                  match tryMul s.quoteTarget (min baseInputRt quoteInputRt) with
                  | .error e => ({ s with baseTarget := bt }, Except.error e)
                  | .ok qtInc =>
                    match tryAdd qtInc s.quoteTarget with
                    | .error e => ({ s with baseTarget := bt }, Except.error e)
                    | .ok qt =>
                      match tryFloorU64 shares with
                      | .error e =>
                        ({ s with
                            baseTarget := bt, quoteTarget := qt,
                            baseReserve := decFrom baseBalance, quoteReserve := decFrom quoteBalance }, Except.error e)
                      | .ok out =>
                        ({ s with
                            baseTarget := bt, quoteTarget := qt,
                            baseReserve := decFrom baseBalance, quoteReserve := decFrom quoteBalance }, Except.ok out)
      else (s, Except.error .incorrectMint)

/-- Embedding of `PoolState::sell_shares` (`&mut self`): note that both targets are
reassigned before the minimum-amount check, so a `WithdrawNotEnough`
failure leaves the targets already shrunk. -/
def sellShares (s : PoolState) (shareAmount baseMinAmount quoteMinAmount totalSupply : Nat) :
    PoolState × Except SwapError (Nat × Nat) :=
  match tryMulU s.baseReserve shareAmount with
  | .error e => (s, Except.error e)
  | .ok bm =>
    match tryDivU bm totalSupply with
    | .error e => (s, Except.error e)
    | .ok baseAmount =>
      match tryMulU s.quoteReserve shareAmount with
      | .error e => (s, Except.error e)
      | .ok qm =>
        match tryDivU qm totalSupply with
        | .error e => (s, Except.error e)
        | .ok quoteAmount =>
          match tryMulU s.baseTarget shareAmount with
          | .error e => (s, Except.error e)
          | .ok btm =>
            match tryDivU btm totalSupply with
            | .error e => (s, Except.error e)
            | .ok btRed =>
              match trySub s.baseTarget btRed with
              | .error e => (s, Except.error e)
              | .ok bt =>
                -- from here `self.base_target` holds `bt`
                match tryMulU s.quoteTarget shareAmount with
                | .error e => ({ s with baseTarget := bt }, Except.error e)
                | .ok qtm =>
                  match tryDivU qtm totalSupply with
                  | .error e => ({ s with baseTarget := bt }, Except.error e)
                  | .ok qtRed =>
                    match trySub s.quoteTarget qtRed with
                    | .error e => ({ s with baseTarget := bt }, Except.error e)
                    | .ok qt =>
                      -- from here `self.quote_target` holds `qt`
                      if baseAmount < decFrom baseMinAmount ∨ quoteAmount < decFrom quoteMinAmount then
                        ({ s with baseTarget := bt, quoteTarget := qt },
                         Except.error .withdrawNotEnough)
                      else
                        match trySub s.baseReserve baseAmount with
                        | .error e =>
                          ({ s with baseTarget := bt, quoteTarget := qt }, Except.error e)
                        | .ok br =>
                          match trySub s.quoteReserve quoteAmount with
                          | .error e =>
                            ({ s with
                                baseTarget := bt, quoteTarget := qt,
                                baseReserve := br }, Except.error e)
                          | .ok qr =>
                            match tryFloorU64 baseAmount with
                            | .error e =>
                              ({ s with
                                  baseTarget := bt, quoteTarget := qt,
                                  baseReserve := br, quoteReserve := qr }, Except.error e)
                            | .ok bOut =>
                              match tryFloorU64 quoteAmount with
                              | .error e =>
                                ({ s with
                                    baseTarget := bt, quoteTarget := qt,
                                    baseReserve := br, quoteReserve := qr }, Except.error e)
                              | .ok qOut =>
                                ({ s with
                                    baseTarget := bt, quoteTarget := qt,
                                    baseReserve := br, quoteReserve := qr }, Except.ok (bOut, qOut))

/-- Embedding of `MAX_LIQUIDITY_POSITIONS` of `state/liquidity.rs`. -/
def MAX_LIQUIDITY_POSITIONS : Nat := 10

/-- Embedding of `MIN_CLAIM_PERIOD` of `state/liquidity.rs` (seconds). -/
def MIN_CLAIM_PERIOD : Int := 2592000

/-- Upper bound of `i64` (`UnixTimestamp` in the source). -/
def I64_MAX : Int := 2 ^ 63 - 1

/-- Embedding of `LiquidityPosition` of `state/liquidity.rs`; `Pubkey` is abstracted to
a `Nat` key (only equality of keys is used by the embedded functions). -/
structure LiquidityPosition where
  pool : Nat
  liquidityAmount : Nat
  rewardsOwed : Nat
  rewardsEstimated : Nat
  cumulativeInterest : Nat
  lastUpdateTs : Int
  nextClaimTs : Int
  deriving DecidableEq, Repr

/-- Embedding of `LiquidityPosition::new`: fresh position with a checked
`current_ts + MIN_CLAIM_PERIOD` (`None` on `i64` overflow). -/
def LiquidityPosition.new (pool : Nat) (currentTs : Int) : Option LiquidityPosition :=
  if currentTs + MIN_CLAIM_PERIOD ≤ I64_MAX then
    some { pool := pool, liquidityAmount := 0, rewardsOwed := 0, rewardsEstimated := 0,
           cumulativeInterest := 0, lastUpdateTs := currentTs,
           nextClaimTs := currentTs + MIN_CLAIM_PERIOD }
  else none

/-- Embedding of `LiquidityProvider` of `state/liquidity.rs`. -/
structure LiquidityProvider where
  isInitialized : Bool
  owner : Nat
  positions : List LiquidityPosition
  deriving DecidableEq, Repr

/-- Embedding of `LiquidityProvider::find_position_index`: index of the first position
whose pool key matches. -/
def findPositionIndex (lp : LiquidityProvider) (pool : Nat) : Option Nat :=
  lp.positions.findIdx? (fun p => p.pool = pool)

/-- Embedding of `LiquidityProvider::find_or_add_position`: return the provider after
the call (unchanged when a matching position exists, otherwise with the
new position pushed at the end); `none` models the `unwrap` panic when
`LiquidityPosition::new` fails.  The source performs no capacity check
before pushing. -/
def findOrAddPosition (lp : LiquidityProvider) (pool : Nat) (currentTs : Int) :
    Option LiquidityProvider :=
  match findPositionIndex lp pool with
  | some _ => some lp
  | none =>
    match LiquidityPosition.new pool currentTs with
    | some p => some { lp with positions := lp.positions ++ [p] }
    | none => none

/-- Pyth price type tag used by `get_pyth_price`
(`pyth::PriceType::Price` versus anything else).
Modelled from the spec: the `pyth` module itself is not under `src/`;
its `Price` record layout `{expo: i32, valid_slot: u64, agg: {price: i64,
conf: u64}}` and the `Price` price-type tag are taken from §4.8 of the
specification and from the field accesses in `processor.rs`. -/
inductive PythPriceType where
  | unknown
  | price
  deriving DecidableEq, Repr

/-- The parsed Pyth oracle record read by `get_pyth_price`.
Modelled from the spec: see `PythPriceType`; byte-level loading
(`pyth::load`) is abstracted away, the embedded functions receive the
parsed record. -/
structure PythPrice where
  ptype : PythPriceType
  expo : Int
  validSlot : Nat
  aggPrice : Int
  aggConf : Nat
  deriving DecidableEq, Repr

/-- The sysvar clock fields used by the oracle path (`slot`, and
`unix_timestamp` after the `try_into().unwrap()` to `u64`). -/
structure Clock where
  slot : Nat
  unixTimestamp : Nat
  deriving DecidableEq, Repr

/-- Wrapping `u64` subtraction (release-profile Rust `a - b` on `u64`),
for `a, b < 2^64`. -/
def wsub64 (a b : Nat) : Nat := (a + U64_MOD - b) % U64_MOD

/-- Wrapping `u64` multiplication (release-profile Rust `a * b` on `u64`). -/
def wmul64 (a b : Nat) : Nat := a * b % U64_MOD

/-- Embedding of `get_pyth_price` of `processor.rs` (`STALE_AFTER_SLOTS_ELAPSED = 5`). -/
def getPythPrice (pp : PythPrice) (clk : Clock) : Res :=
  if pp.ptype ≠ PythPriceType.price then .error .invalidOracleConfig
  else if clk.slot < pp.validSlot then .error .calculationFailure
  else if 5 ≤ clk.slot - pp.validSlot then .error .invalidOracleConfig
  else if pp.aggPrice < 0 then .error .invalidOracleConfig
  else if 0 < pp.aggConf ∧ pp.aggPrice.toNat < wmul64 pp.aggConf 100 then
    .error .invalidOracleConfig
  else if 0 ≤ pp.expo then
    if U64_MOD ≤ 10 ^ pp.expo.toNat then .error .calculationFailure
    else tryMulU (decFrom pp.aggPrice.toNat) (10 ^ pp.expo.toNat)
  else
    if U64_MOD ≤ 10 ^ (-pp.expo).toNat then .error .calculationFailure
    else tryDivU (decFrom pp.aggPrice.toNat) (10 ^ (-pp.expo).toNat)

/-- Embedding of `get_market_price_from_pyth` of `processor.rs`. -/
def getMarketPriceFromPyth (pa pb : PythPrice) (clk : Clock) : Res :=
  Except.bind (getPythPrice pa clk) fun priceA =>
    Except.bind (getPythPrice pb clk) fun priceB =>
      if priceB < priceA then tryDiv priceA priceB else tryDiv priceB priceA

/-- The TWAP-relevant fields of `SwapInfo` (`state/swap.rs`). -/
structure SwapTwapInfo where
  isOpenTwap : Bool
  blockTimestampLast : Nat
  cumulativeTicks : Nat
  basePriceCumulativeLast : Nat
  deriving DecidableEq, Repr

/-- The TWAP accumulation step of `get_new_market_price`: when the TWAP is
open, a positive wall-clock interval elapsed and both reserves are
nonzero, add `mid · Δt` to the cumulative price.  `adjust_target` does not
touch the reserves, so the reserves of the adjusted state equal those of
the input pool. -/
def accumTwap (ts : SwapTwapInfo) (pool : PoolState) (mid : Nat) (nowTs : Nat) : Res :=
  if ts.isOpenTwap then
    let timeElapsed := wsub64 nowTs ts.blockTimestampLast
    if 0 < timeElapsed ∧ pool.baseReserve ≠ 0 ∧ pool.quoteReserve ≠ 0 then
      Except.bind (tryMulU mid timeElapsed) fun prod =>
        tryAdd ts.basePriceCumulativeLast prod
    else .ok ts.basePriceCumulativeLast
  else .ok ts.basePriceCumulativeLast

/-- The market-price candidate selection of `get_new_market_price`: the
oracle price when the oracle succeeded, otherwise the TWAP quotient
`base_price_cumulative_last / (now - cumulative_ticks)` when the TWAP is
open, otherwise the current mid price. -/
def marketCandidate (oracleRes : Res) (isOpenTwap : Bool) (bpc nowTs ticks mid : Nat) : Res :=
  match oracleRes with
  | .ok m => .ok m
  | .error _ =>
    if isOpenTwap then tryDivU bpc (wsub64 nowTs ticks) else .ok mid

/-- The deviation guard at the end of `get_new_market_price`: adopt the
candidate only when it deviates from the mid price by more than 1%
(`|mid - market| * 100 > mid`), otherwise keep the mid price. -/
def adoptMarketPrice (mid market : Nat) : Res :=
  Except.bind ((if market < mid then trySub mid market else trySub market mid)) fun deviation =>
    Except.bind (tryMulU deviation 100) fun d100 =>
      .ok (if mid < d100 then market else mid)

/-- Embedding of `get_new_market_price` of `processor.rs` with the oracle outcome as an
explicit parameter (`oracleRes` stands for the result of
`get_market_price_from_pyth` on the two Pyth accounts); returns the
adopted market price and the updated cumulative price. -/
def getNewMarketPriceCore (ts : SwapTwapInfo) (pool : PoolState) (oracleRes : Res)
    (nowTs : Nat) : Except SwapError (Nat × Nat) :=
  Except.bind (getMidPrice pool) fun pm =>
    Except.bind (accumTwap ts pm.1 pm.2 nowTs) fun bpc =>
      Except.bind (marketCandidate oracleRes ts.isOpenTwap bpc nowTs ts.cumulativeTicks pm.2) fun market =>
        Except.bind (adoptMarketPrice pm.2 market) fun adopted =>
          .ok (adopted, bpc)

/-- Embedding of `get_new_market_price` of `processor.rs`, reading the oracle from the
two parsed Pyth records. -/
def getNewMarketPrice (ts : SwapTwapInfo) (pool : PoolState) (pa pb : PythPrice)
    (clk : Clock) : Except SwapError (Nat × Nat) :=
  getNewMarketPriceCore ts pool (getMarketPriceFromPyth pa pb clk) clk.unixTimestamp

/-- The balanced test pool of the source (`test_one_sell_token` and the
spec scenarios 2, 3 and 5): price 100, slope 0.5, all reserves and targets
at 1 000 000 000, multiplier `One`. -/
def examplePool : PoolState :=
  { marketPrice := 100 * WAD, slope := HALF_WAD,
    baseTarget := decFrom 1000000000, quoteTarget := decFrom 1000000000,
    baseReserve := decFrom 1000000000, quoteReserve := decFrom 1000000000,
    multiplier := .one }

/-- A pool in the `AboveOne` state with `base_target - base_reserve`
larger than the traded amount (non-crossing trade). -/
def abovePool : PoolState :=
  { marketPrice := 100 * WAD, slope := HALF_WAD,
    baseTarget := decFrom 2000000000, quoteTarget := decFrom 1000000000,
    baseReserve := decFrom 1000000000, quoteReserve := decFrom 2000000000,
    multiplier := .aboveOne }

/-- A freshly initialized pool (both reserves and targets zero),
price 100, slope 0.5. -/
def freshPool : PoolState :=
  { marketPrice := 100 * WAD, slope := HALF_WAD,
    baseTarget := 0, quoteTarget := 0, baseReserve := 0, quoteReserve := 0,
    multiplier := .one }

/-- A liquidity position as appended on first deposit, used to build a
provider that is already at capacity. -/
def capPosition (i : Nat) : LiquidityPosition :=
  { pool := i, liquidityAmount := 0, rewardsOwed := 0, rewardsEstimated := 0,
    cumulativeInterest := 0, lastUpdateTs := 0, nextClaimTs := MIN_CLAIM_PERIOD }

/-- A liquidity provider holding `MAX_LIQUIDITY_POSITIONS = 10` positions
with pool keys `0, …, 9`. -/
def lpTen : LiquidityProvider :=
  { isInitialized := true, owner := 7, positions := (List.range 10).map capPosition }

/-- The state left behind by the failing `sell_shares` call of spec
scenario 5: both targets already shrunk to 500 000 000, reserves
untouched. -/
def halvedPool : PoolState :=
  { marketPrice := 100 * WAD, slope := HALF_WAD,
    baseTarget := decFrom 500000000, quoteTarget := decFrom 500000000,
    baseReserve := decFrom 1000000000, quoteReserve := decFrom 1000000000,
    multiplier := .one }

/-- The state after the first deposit of spec scenario 1:
`shares = 10 000 000`, `base_target = 10 000 000`,
`quote_target = 1 000 000 000`, reserves at the supplied balances. -/
def poolAfterInit : PoolState :=
  { marketPrice := 100 * WAD, slope := HALF_WAD,
    baseTarget := decFrom 10000000, quoteTarget := decFrom 1000000000,
    baseReserve := decFrom 1000000000, quoteReserve := decFrom 1000000000,
    multiplier := .one }

/-- An oracle record whose `valid_slot` is exactly five slots old. -/
def stalePyth : PythPrice :=
  { ptype := .price, expo := 0, validSlot := 95, aggPrice := 100, aggConf := 0 }

/-- The clock against which `stalePyth` is five slots old. -/
def oracleClock : Clock := { slot := 100, unixTimestamp := 100 }

/-- TWAP fields with the TWAP open and all counters at zero. -/
def twapTs : SwapTwapInfo :=
  { isOpenTwap := true, blockTimestampLast := 0, cumulativeTicks := 0,
    basePriceCumulativeLast := 0 }

/-- TWAP fields with the TWAP closed. -/
def noTwapTs : SwapTwapInfo :=
  { isOpenTwap := false, blockTimestampLast := 0, cumulativeTicks := 0,
    basePriceCumulativeLast := 0 }

/-- C3. For the pool with `base_target = quote_target = base_reserve =
quote_reserve = 1 000 000 000`, multiplier `One`, `market_price = 100`
and `slope = 0.5`, `sell_base_token(100)` returns `(10 000, BelowOne)`
and `sell_quote_token(100)` returns `(1, AboveOne)`. -/
theorem sellToken_trivial_curve_values :
    sellBaseToken examplePool 100 = .ok (10000, .belowOne) ∧
    sellQuoteToken examplePool 100 = .ok (1, .aboveOne) := by
  exact ⟨by decide, by decide⟩

/-- C10. The zero-input early returns of the curve primitives bypass the
slope validation: for every slope `s` (in particular `s > 1`, which the
later range check would reject with `InvalidSlope`),
`get_target_amount_reverse_direction(T, R, 0, p, s)` with `T > 0` returns
`Ok(0)`, and `get_target_reserve(0, Q, p, s)` returns `Ok(0)`, because in
both functions the zero-input check precedes the slope-range check. -/
theorem zero_input_bypasses_slope_validation (T R Q p s : Nat) (hT : 0 < T) :
    getTargetAmountReverseDirection T R 0 p s = .ok 0 ∧
    getTargetReserve 0 Q p s = .ok 0 := by
  constructor
  · unfold getTargetAmountReverseDirection
    rw [if_neg (Nat.pos_iff_ne_zero.mp hT)]
    rfl
  · rfl

/-- Witness for C10 at `T = 1`, `R = 3`, `Q = 5`, `p = 7` and the
out-of-range slope `s = 2·WAD`. -/
theorem zero_input_bypasses_slope_validation_witness :
    0 < 1 ∧
    (getTargetAmountReverseDirection 1 3 0 7 (2 * WAD) = .ok 0 ∧
     getTargetReserve 0 5 7 (2 * WAD) = .ok 0) :=
  ⟨by decide, zero_input_bypasses_slope_validation 1 3 5 7 (2 * WAD) (by decide)⟩

/-- C4. With slope zero, `get_target_amount_reverse_direction(T, R, Q, p, 0)`
returns `min(Q·p, R)` for every `T > 0` whenever the fixed-point product
`Q·p` does not overflow; in particular it returns `0` when `Q = 0`. -/
theorem getTargetAmountReverseDirection_slope_zero (T R Q p : Nat) (hT : 0 < T)
    (hov : Q * p < U192_MOD) :
    getTargetAmountReverseDirection T R Q p 0 = .ok (min (Q * p / WAD) R) := by
  unfold getTargetAmountReverseDirection
  rw [if_neg (Nat.pos_iff_ne_zero.mp hT)]
  by_cases hQ : Q = 0
  · subst hQ
    simp
  · rw [if_neg hQ, if_neg (by simp [WAD])]
    unfold tryMul
    rw [if_pos hov]
    simp [Except.bind]

/-- Witness for C4 at `T = 1`, `R = 3`, `Q = 2`, `p = WAD` (price one):
the result is `min(2, 3) = 2`. -/
theorem getTargetAmountReverseDirection_slope_zero_witness :
    0 < 1 ∧ 2 * WAD < U192_MOD ∧
    getTargetAmountReverseDirection 1 3 2 WAD 0 = .ok 2 :=
  ⟨by decide, by decide,
   getTargetAmountReverseDirection_slope_zero 1 3 2 WAD (by decide) (by decide)⟩

/-- C2 (violated by the code). `find_or_add_position` performs no capacity
check: on a provider already holding `MAX_LIQUIDITY_POSITIONS = 10`
positions, with a pool key not in its list, it appends an eleventh
position instead of failing or returning without appending. -/
theorem findOrAddPosition_capacity_violation :
    lpTen.positions.length = MAX_LIQUIDITY_POSITIONS ∧
    findPositionIndex lpTen 10 = none ∧
    (findOrAddPosition lpTen 10 0).map (fun l => l.positions.length) =
      some (MAX_LIQUIDITY_POSITIONS + 1) := by
  refine ⟨by decide, by decide, by decide⟩

/-- The operation `try_mul(u64)` fails exactly on overflow, always with
`CalculationFailure`. -/
theorem tryMulU_error_iff (a b : Nat) (e : SwapError) :
    tryMulU a b = .error e ↔ U192_MOD ≤ a * b ∧ e = .calculationFailure := by
  unfold tryMulU
  split
  · rename_i hc; simp [Nat.not_le.mpr hc]
  · rename_i hc; simp [Nat.not_lt.mp hc, eq_comm]

/-- The operation `try_div(u64)` fails exactly on a zero divisor, always with
`CalculationFailure`. -/
theorem tryDivU_error_iff (a b : Nat) (e : SwapError) :
    tryDivU a b = .error e ↔ b = 0 ∧ e = .calculationFailure := by
  unfold tryDivU
  split
  · rename_i hb; simp [hb, eq_comm]
  · rename_i hb; simp [hb]

/-- The operation `try_sub` fails exactly on underflow, always with
`CalculationFailure`. -/
theorem trySub_error_iff (a b : Nat) (e : SwapError) :
    trySub a b = .error e ↔ a < b ∧ e = .calculationFailure := by
  unfold trySub
  split
  · rename_i hle; simp [Nat.not_lt.mpr hle]
  · rename_i hle; simp [Nat.not_le.mp hle, eq_comm]

/-- The operation `try_floor_u64` fails exactly when the floor does not fit in `u64`,
always with `CalculationFailure`. -/
theorem tryFloorU64_error_iff (v : Nat) (e : SwapError) :
    tryFloorU64 v = .error e ↔ U64_MOD ≤ v / WAD ∧ e = .calculationFailure := by
  unfold tryFloorU64
  split
  · rename_i hc; simp [Nat.not_le.mpr hc]
  · rename_i hc; simp [Nat.not_lt.mp hc, eq_comm]

/-- Counterexample to C1: on the pool with all reserves and targets equal
to 1 000 000 000, `sell_shares(500 000 000, 1 000 000 000, 1 000 000 000,
1 000 000 000)` fails with `WithdrawNotEnough`, but the in-memory state is
NOT left unmodified: both `base_target` and `quote_target` have already
been shrunk (to 500 000 000) when the error is signalled, because the
target reassignments precede the minimum-amount check. -/
theorem sellShares_mutates_state_on_withdrawNotEnough :
    (sellShares examplePool 500000000 1000000000 1000000000 1000000000).2 =
      .error .withdrawNotEnough ∧
    (sellShares examplePool 500000000 1000000000 1000000000 1000000000).1.baseTarget ≠
      examplePool.baseTarget ∧
    (sellShares examplePool 500000000 1000000000 1000000000 1000000000).1.quoteTarget ≠
      examplePool.quoteTarget ∧
    (sellShares examplePool 500000000 1000000000 1000000000 1000000000).1 = halvedPool := by
  refine ⟨by decide, by decide, by decide, by decide⟩

/-- C1 (amended). When `sell_shares` fails with `WithdrawNotEnough`, the
reserves, market price, slope and multiplier are unmodified, but both
targets have already been reduced by their proportional share
`target · share_amount / total_supply` when the error is signalled. -/
theorem sellShares_withdrawNotEnough_mutated_state
    (s : PoolState) (a bm qm ts : Nat) (s' : PoolState)
    (h : sellShares s a bm qm ts = (s', .error .withdrawNotEnough)) :
    s'.baseReserve = s.baseReserve ∧ s'.quoteReserve = s.quoteReserve ∧
    s'.marketPrice = s.marketPrice ∧ s'.slope = s.slope ∧
    s'.multiplier = s.multiplier ∧
    (∃ x y, tryMulU s.baseTarget a = .ok x ∧ tryDivU x ts = .ok y ∧
      trySub s.baseTarget y = .ok s'.baseTarget) ∧
    (∃ x y, tryMulU s.quoteTarget a = .ok x ∧ tryDivU x ts = .ok y ∧
      trySub s.quoteTarget y = .ok s'.quoteTarget) := by
  unfold sellShares at h
  repeat' split at h
  all_goals injection h with h1 h2
  all_goals first
    | (exfalso
       injection h2 with h3
       subst h3
       simp_all [tryMulU_error_iff, tryDivU_error_iff, trySub_error_iff, tryFloorU64_error_iff])
    | (subst h1
       exact ⟨rfl, rfl, rfl, rfl, rfl,
              ⟨_, _, by assumption, by assumption, by assumption⟩,
              ⟨_, _, by assumption, by assumption, by assumption⟩⟩)
    | (injection h2)

/-- Witness for the amended C1 at the concrete instance of spec
scenario 5. -/
theorem sellShares_withdrawNotEnough_mutated_state_witness :
    halvedPool.baseReserve = examplePool.baseReserve ∧
    halvedPool.quoteReserve = examplePool.quoteReserve ∧
    halvedPool.marketPrice = examplePool.marketPrice ∧
    halvedPool.slope = examplePool.slope ∧
    halvedPool.multiplier = examplePool.multiplier ∧
    (∃ x y, tryMulU examplePool.baseTarget 500000000 = .ok x ∧
      tryDivU x 1000000000 = .ok y ∧
      trySub examplePool.baseTarget y = .ok halvedPool.baseTarget) ∧
    (∃ x y, tryMulU examplePool.quoteTarget 500000000 = .ok x ∧
      tryDivU x 1000000000 = .ok y ∧
      trySub examplePool.quoteTarget y = .ok halvedPool.quoteTarget) :=
  sellShares_withdrawNotEnough_mutated_state examplePool 500000000 1000000000 1000000000
    1000000000 halvedPool (by decide)

/-- C7. Whenever `buy_shares(base_balance, quote_balance, 0)` succeeds on
a pool with market price `p`, the resulting state has
`base_target = shares` with `shares = quote_balance/p` if
`p·base_balance > quote_balance` and `shares = base_balance` otherwise,
`quote_target = shares·p`, committed reserves equal to the supplied
balances, and the returned value is `floor(shares)`. -/
theorem buyShares_initial_mint (s : PoolState) (bb qb r : Nat) (s' : PoolState)
    (h : buyShares s bb qb 0 = (s', .ok r)) :
    s'.baseReserve = decFrom bb ∧ s'.quoteReserve = decFrom qb ∧
    s'.marketPrice = s.marketPrice ∧ s'.slope = s.slope ∧ s'.multiplier = s.multiplier ∧
    tryMul s'.baseTarget s.marketPrice = .ok s'.quoteTarget ∧
    tryFloorU64 s'.baseTarget = .ok r ∧
    (match tryMul s.marketPrice (decFrom bb) with
     | .ok pb => if decFrom qb < pb then tryDiv (decFrom qb) s.marketPrice = .ok s'.baseTarget
                 else s'.baseTarget = decFrom bb
     | .error _ => False) := by
  unfold buyShares at h
  repeat' split at h
  all_goals first
    | (injection h with h1 h2
       injection h2 with h3
       subst h1
       subst h3
       simp_all)
    | (injection h with h1 h2
       injection h2)
  all_goals (split <;> simp_all)

/-- Witness for C7 at spec scenario 1: `p = 100`,
`buy_shares(1 000 000 000, 1 000 000 000, 0)` yields 10 000 000 shares. -/
theorem buyShares_initial_mint_witness :
    poolAfterInit.baseReserve = decFrom 1000000000 ∧
    poolAfterInit.quoteReserve = decFrom 1000000000 ∧
    poolAfterInit.marketPrice = freshPool.marketPrice ∧
    poolAfterInit.slope = freshPool.slope ∧
    poolAfterInit.multiplier = freshPool.multiplier ∧
    tryMul poolAfterInit.baseTarget freshPool.marketPrice = .ok poolAfterInit.quoteTarget ∧
    tryFloorU64 poolAfterInit.baseTarget = .ok 10000000 ∧
    (match tryMul freshPool.marketPrice (decFrom 1000000000) with
     | .ok pb =>
       if decFrom 1000000000 < pb then
         tryDiv (decFrom 1000000000) freshPool.marketPrice = .ok poolAfterInit.baseTarget
       else poolAfterInit.baseTarget = decFrom 1000000000
     | .error _ => False) :=
  buyShares_initial_mint freshPool 1000000000 1000000000 10000000 poolAfterInit (by decide)

/-- Successful bind decomposes into a successful first step and a
successful continuation. -/
theorem bind_ok_iff {β α : Type} (x : Except SwapError β) (f : β → Except SwapError α) (r : α) :
    Except.bind x f = .ok r ↔ ∃ v, x = .ok v ∧ f v = .ok r := by
  cases x <;> simp [Except.bind]

/-- A failing bind either fails in the first step or succeeds there and
fails in the continuation. -/
theorem bind_error_iff {β α : Type} (x : Except SwapError β) (f : β → Except SwapError α)
    (e : SwapError) :
    Except.bind x f = .error e ↔
      x = .error e ∨ ∃ v, x = .ok v ∧ f v = .error e := by
  cases x <;> simp [Except.bind]

/-- The operation `try_add` succeeds exactly without overflow, returning the sum. -/
theorem tryAdd_ok_iff (a b c : Nat) :
    tryAdd a b = .ok c ↔ a + b < U192_MOD ∧ c = a + b := by
  unfold tryAdd; split <;> simp_all [eq_comm]

/-- The operation `try_sub` succeeds exactly without underflow, returning the
difference. -/
theorem trySub_ok_iff (a b c : Nat) :
    trySub a b = .ok c ↔ b ≤ a ∧ c = a - b := by
  unfold trySub; split <;> simp_all [eq_comm]

/-- The operation `try_mul(Decimal)` succeeds exactly without overflow of the raw
product, returning the rescaled product. -/
theorem tryMul_ok_iff (a b c : Nat) :
    tryMul a b = .ok c ↔ a * b < U192_MOD ∧ c = a * b / WAD := by
  unfold tryMul; split <;> simp_all [eq_comm]

/-- The operation `try_mul(u64)` succeeds exactly without overflow, returning the raw
product. -/
theorem tryMulU_ok_iff (a b c : Nat) :
    tryMulU a b = .ok c ↔ a * b < U192_MOD ∧ c = a * b := by
  unfold tryMulU; split <;> simp_all [eq_comm]

/-- The operation `try_div(u64)` succeeds exactly on a nonzero divisor, returning the
quotient. -/
theorem tryDivU_ok_iff (a b c : Nat) :
    tryDivU a b = .ok c ↔ b ≠ 0 ∧ c = a / b := by
  unfold tryDivU; split <;> simp_all [eq_comm]

/-- The operation `try_floor_u64` succeeds exactly when the floor fits in `u64`. -/
theorem tryFloorU64_ok_iff (v c : Nat) :
    tryFloorU64 v = .ok c ↔ v / WAD < U64_MOD ∧ c = v / WAD := by
  unfold tryFloorU64; split <;> simp_all [eq_comm]

/-- C5. For every current reserve `R > 0`, quote amount `Q > 0`, market
price `p > 0` and slope `0 < k ≤ 1`, whenever
`get_target_reserve(R, Q, p, k)` succeeds its result is at least `R`:
the premium `(√ - 1)/2/k + 1` is at least one, so `premium · R ≥ R`. -/
theorem getTargetReserve_ge_current_reserve (R Q p k res : Nat)
    (hR : 0 < R) (hQ : 0 < Q) (hp : 0 < p) (hk : 0 < k) (hk1 : k ≤ WAD)
    (h : getTargetReserve R Q p k = .ok res) : R ≤ res := by
  unfold getTargetReserve at h
  rw [if_neg (Nat.pos_iff_ne_zero.mp hR), if_neg (Nat.pos_iff_ne_zero.mp hk),
      if_neg (Nat.not_lt.mpr hk1)] at h
  simp only [bind_ok_iff] at h
  obtain ⟨ms, -, po, -, sq, -, d1, -, d2, -, d3, -, premium, hprem, hres⟩ := h
  rw [tryAdd_ok_iff] at hprem
  rw [tryMul_ok_iff] at hres
  obtain ⟨-, rfl⟩ := hprem
  obtain ⟨-, rfl⟩ := hres
  have hmono : WAD * R / WAD ≤ (d3 + WAD) * R / WAD :=
    Nat.div_le_div_right (mul_le_mul_right' (Nat.le_add_left WAD d3) R)
  rwa [Nat.mul_div_cancel_left R (by decide : 0 < WAD)] at hmono

/-- Witness for C5 at `R = Q = p = 1` and slope `k = 1`:
`get_target_reserve` returns `1.5` and `1 ≤ 1.5`. -/
theorem getTargetReserve_ge_current_reserve_witness :
    getTargetReserve WAD WAD WAD WAD = .ok 1500000000 ∧ WAD ≤ 1500000000 :=
  ⟨by decide,
   getTargetReserve_ge_current_reserve WAD WAD WAD WAD 1500000000
     (by decide) (by decide) (by decide) (by decide) (by decide) (by decide)⟩

/-- C6. Multiplier transitions of the sell entry points.  For
`sell_base_token`: the returned multiplier is `AboveOne` only when the
input multiplier was `AboveOne` and `base_target - base_reserve` strictly
exceeds the sold amount; when it equals the sold amount the result is
`One`; in all other cases (`One`, `BelowOne`, or a crossing trade) it is
`BelowOne`.  Symmetrically for `sell_quote_token` with `BelowOne` and
`quote_target - quote_reserve`. -/
theorem sellToken_multiplier_transitions :
    (∀ (s : PoolState) (a out : Nat) (m' : Multiplier),
        sellBaseToken s a = .ok (out, m') →
        match s.multiplier with
        | .one => m' = .belowOne
        | .belowOne => m' = .belowOne
        | .aboveOne =>
          s.baseReserve ≤ s.baseTarget ∧
          m' = (if decFrom a < s.baseTarget - s.baseReserve then .aboveOne
                else if decFrom a = s.baseTarget - s.baseReserve then .one
                else .belowOne)) ∧
    (∀ (s : PoolState) (a out : Nat) (m' : Multiplier),
        sellQuoteToken s a = .ok (out, m') →
        match s.multiplier with
        | .one => m' = .aboveOne
        | .aboveOne => m' = .aboveOne
        | .belowOne =>
          s.quoteReserve ≤ s.quoteTarget ∧
          m' = (if decFrom a < s.quoteTarget - s.quoteReserve then .belowOne
                else if decFrom a = s.quoteTarget - s.quoteReserve then .one
                else .aboveOne)) := by
  constructor
  · intro s a out m' h
    unfold sellBaseToken at h
    simp only [bind_ok_iff, Except.ok.injEq, Prod.mk.injEq] at h
    obtain ⟨qm, hqm, o, hfl, ho, hm⟩ := h
    cases hmul : s.multiplier with
    | one =>
      rw [hmul] at hqm
      simp only [bind_ok_iff, Except.ok.injEq] at hqm
      obtain ⟨q, -, hq⟩ := hqm
      simp [← hm, ← hq]
    | belowOne =>
      rw [hmul] at hqm
      simp only [bind_ok_iff, Except.ok.injEq] at hqm
      obtain ⟨q, -, hq⟩ := hqm
      simp [← hm, ← hq]
    | aboveOne =>
      rw [hmul] at hqm
      simp only [bind_ok_iff, trySub_ok_iff, Except.ok.injEq] at hqm
      obtain ⟨btop, ⟨hle, rfl⟩, btrq, ⟨hle2, rfl⟩, hif⟩ := hqm
      refine ⟨hle, ?_⟩
      by_cases h1 : decFrom a < s.baseTarget - s.baseReserve
      · rw [if_pos h1] at hif ⊢
        simp only [bind_ok_iff, Except.ok.injEq] at hif
        obtain ⟨q, -, hq⟩ := hif
        rw [← hm, ← hq]
      · rw [if_neg h1] at hif ⊢
        by_cases h2 : decFrom a = s.baseTarget - s.baseReserve
        · rw [if_pos h2] at hif ⊢
          injection hif with hif2
          rw [← hm, ← hif2]
        · rw [if_neg h2] at hif ⊢
          simp only [bind_ok_iff, Except.ok.injEq] at hif
          obtain ⟨rest, -, q, -, q2, -, hq⟩ := hif
          rw [← hm, ← hq]
  · intro s a out m' h
    unfold sellQuoteToken at h
    simp only [bind_ok_iff, Except.ok.injEq, Prod.mk.injEq] at h
    obtain ⟨bm, hbm, o, hfl, ho, hm⟩ := h
    cases hmul : s.multiplier with
    | one =>
      rw [hmul] at hbm
      simp only [bind_ok_iff, Except.ok.injEq] at hbm
      obtain ⟨b, -, hb⟩ := hbm
      simp [← hm, ← hb]
    | aboveOne =>
      rw [hmul] at hbm
      simp only [bind_ok_iff, Except.ok.injEq] at hbm
      obtain ⟨b, -, hb⟩ := hbm
      simp [← hm, ← hb]
    | belowOne =>
      rw [hmul] at hbm
      simp only [bind_ok_iff, trySub_ok_iff, Except.ok.injEq] at hbm
      obtain ⟨qtop, ⟨hle, rfl⟩, btrb, ⟨hle2, rfl⟩, hif⟩ := hbm
      refine ⟨hle, ?_⟩
      by_cases h1 : decFrom a < s.quoteTarget - s.quoteReserve
      · rw [if_pos h1] at hif ⊢
        simp only [bind_ok_iff, Except.ok.injEq] at hif
        obtain ⟨b, -, hb⟩ := hif
        rw [← hm, ← hb]
      · rw [if_neg h1] at hif ⊢
        by_cases h2 : decFrom a = s.quoteTarget - s.quoteReserve
        · rw [if_pos h2] at hif ⊢
          injection hif with hif2
          rw [← hm, ← hif2]
        · rw [if_neg h2] at hif ⊢
          simp only [bind_ok_iff, Except.ok.injEq] at hif
          obtain ⟨rest, -, b, -, b2, -, hb⟩ := hif
          rw [← hm, ← hb]

/-- Witness for C6 on the `AboveOne` pool: a non-crossing
`sell_base_token(100)` returns multiplier `AboveOne` (and 24 999 quote),
and `sell_quote_token(100)` keeps `AboveOne`. -/
theorem sellToken_multiplier_transitions_witness :
    (abovePool.baseReserve ≤ abovePool.baseTarget ∧
     Multiplier.aboveOne =
       (if decFrom 100 < abovePool.baseTarget - abovePool.baseReserve then Multiplier.aboveOne
        else if decFrom 100 = abovePool.baseTarget - abovePool.baseReserve then Multiplier.one
        else Multiplier.belowOne)) ∧
    Multiplier.aboveOne = Multiplier.aboveOne :=
  ⟨sellToken_multiplier_transitions.1 abovePool 100 24999 .aboveOne (by decide),
   sellToken_multiplier_transitions.2 abovePool 100 1 .aboveOne (by decide)⟩

/-- Binding a successful computation runs the continuation. -/
theorem bind_ok_left {β α : Type} (v : β) (f : β → Except SwapError α) :
    Except.bind (Except.ok v) f = f v := rfl

/-- C8. The deviation guard of `get_new_market_price`: with `mid` the
pool's mid price and `market` the selected candidate, the function
returns the candidate exactly when `|mid - market| · 100 > mid`, and
`mid` otherwise (first conjunct); in particular a candidate identical to
`mid` yields exactly `mid` (second conjunct). -/
theorem getNewMarketPrice_deviation_guard
    (ts : SwapTwapInfo) (pool : PoolState) (oracleRes : Res) (nowTs : Nat)
    (s' : PoolState) (mid bpc market : Nat)
    (hmid : getMidPrice pool = .ok (s', mid))
    (hbpc : accumTwap ts s' mid nowTs = .ok bpc)
    (hcand : marketCandidate oracleRes ts.isOpenTwap bpc nowTs ts.cumulativeTicks mid = .ok market)
    (hdev : (if market < mid then mid - market else market - mid) * 100 < U192_MOD) :
    getNewMarketPriceCore ts pool oracleRes nowTs =
      .ok ((if mid < (if market < mid then mid - market else market - mid) * 100
            then market else mid), bpc) ∧
    (market = mid → getNewMarketPriceCore ts pool oracleRes nowTs = .ok (mid, bpc)) := by
  have hadopt : adoptMarketPrice mid market =
      .ok (if mid < (if market < mid then mid - market else market - mid) * 100
           then market else mid) := by
    unfold adoptMarketPrice
    by_cases h1 : market < mid
    · rw [if_pos h1] at hdev ⊢
      rw [(trySub_ok_iff mid market (mid - market)).mpr ⟨Nat.le_of_lt h1, rfl⟩, bind_ok_left,
          (tryMulU_ok_iff (mid - market) 100 ((mid - market) * 100)).mpr ⟨hdev, rfl⟩, bind_ok_left,
          if_pos h1]
    · rw [if_neg h1] at hdev ⊢
      rw [(trySub_ok_iff market mid (market - mid)).mpr ⟨Nat.not_lt.mp h1, rfl⟩, bind_ok_left,
          (tryMulU_ok_iff (market - mid) 100 ((market - mid) * 100)).mpr ⟨hdev, rfl⟩, bind_ok_left,
          if_neg h1]
  have main : getNewMarketPriceCore ts pool oracleRes nowTs =
      .ok ((if mid < (if market < mid then mid - market else market - mid) * 100
            then market else mid), bpc) := by
    unfold getNewMarketPriceCore
    rw [hmid, bind_ok_left]
    show Except.bind (accumTwap ts s' mid nowTs) _ = _
    rw [hbpc, bind_ok_left]
    show Except.bind (marketCandidate oracleRes ts.isOpenTwap bpc nowTs ts.cumulativeTicks mid) _ = _
    rw [hcand, bind_ok_left]
    show Except.bind (adoptMarketPrice mid market) _ = _
    rw [hadopt, bind_ok_left]
  refine ⟨main, fun heq => ?_⟩
  subst heq
  simpa using main

/-- Witness for C8: on the balanced pool (mid 100) with the TWAP closed
and an oracle candidate of 200, the deviation `100·100 > 100` makes the
engine adopt the candidate 200. -/
theorem getNewMarketPrice_deviation_guard_witness :
    getNewMarketPriceCore noTwapTs examplePool (.ok (200 * WAD)) 100 =
      .ok ((if 100 * WAD < (if 200 * WAD < 100 * WAD then 100 * WAD - 200 * WAD
                            else 200 * WAD - 100 * WAD) * 100
            then 200 * WAD else 100 * WAD), 0) ∧
    (200 * WAD = 100 * WAD →
      getNewMarketPriceCore noTwapTs examplePool (.ok (200 * WAD)) 100 = .ok (100 * WAD, 0)) :=
  getNewMarketPrice_deviation_guard noTwapTs examplePool (.ok (200 * WAD)) 100
    examplePool (100 * WAD) 0 (200 * WAD) (by decide) (by decide) rfl (by decide)

/-- C9. Staleness and oracle fallback.  First conjunct: with the price
type, sign and volatility checks passing and `valid_slot ≤ slot`,
`get_pyth_price` fails with `InvalidOracleConfig` exactly when
`slot - valid_slot ≥ 5`.  Second conjunct: on any oracle failure with the
TWAP open, `get_new_market_price` does not propagate the oracle error but
continues with the TWAP quotient
`base_price_cumulative_last / (now - cumulative_ticks)` as candidate.
Third conjunct: on any oracle failure with the TWAP closed it falls back
to the current mid price (and succeeds, the deviation being zero). -/
theorem getPythPrice_staleness_and_fallback :
    (∀ (pp : PythPrice) (clk : Clock),
        pp.ptype = PythPriceType.price →
        pp.validSlot ≤ clk.slot →
        0 ≤ pp.aggPrice →
        ¬(0 < pp.aggConf ∧ pp.aggPrice.toNat < wmul64 pp.aggConf 100) →
        (getPythPrice pp clk = .error .invalidOracleConfig ↔
          5 ≤ clk.slot - pp.validSlot)) ∧
    (∀ (ts : SwapTwapInfo) (pool : PoolState) (nowTs : Nat) (e : SwapError)
        (s' : PoolState) (mid bpc : Nat),
        ts.isOpenTwap = true →
        getMidPrice pool = .ok (s', mid) →
        accumTwap ts s' mid nowTs = .ok bpc →
        getNewMarketPriceCore ts pool (.error e) nowTs =
          Except.bind (tryDivU bpc (wsub64 nowTs ts.cumulativeTicks)) fun market =>
            Except.bind (adoptMarketPrice mid market) fun adopted =>
              Except.ok (adopted, bpc)) ∧
    (∀ (ts : SwapTwapInfo) (pool : PoolState) (nowTs : Nat) (e : SwapError)
        (s' : PoolState) (mid bpc : Nat),
        ts.isOpenTwap = false →
        getMidPrice pool = .ok (s', mid) →
        accumTwap ts s' mid nowTs = .ok bpc →
        getNewMarketPriceCore ts pool (.error e) nowTs = .ok (mid, bpc)) := by
  refine ⟨?_, ?_, ?_⟩
  · intro pp clk hty hvs hpr hvol
    unfold getPythPrice
    rw [if_neg (by simp [hty]), if_neg (Nat.not_lt.mpr hvs)]
    by_cases hd : 5 ≤ clk.slot - pp.validSlot
    · rw [if_pos hd]
      simp [hd]
    · rw [if_neg hd]
      simp only [hd, iff_false]
      rw [if_neg (Int.not_lt.mpr hpr), if_neg hvol]
      split
      · split
        · simp
        · simp [tryMulU_error_iff]
      · split
        · simp
        · simp [tryDivU_error_iff]
  · intro ts pool nowTs e s' mid bpc hopen hmid hbpc
    unfold getNewMarketPriceCore
    rw [hmid, bind_ok_left]
    show Except.bind (accumTwap ts s' mid nowTs) _ = _
    rw [hbpc, bind_ok_left]
    show Except.bind (marketCandidate (.error e) ts.isOpenTwap bpc nowTs ts.cumulativeTicks mid) _ = _
    unfold marketCandidate
    rw [hopen]
    rfl
  · intro ts pool nowTs e s' mid bpc hopen hmid hbpc
    have hadopt : adoptMarketPrice mid mid = .ok mid := by
      unfold adoptMarketPrice
      rw [if_neg (lt_irrefl mid),
          (trySub_ok_iff mid mid 0).mpr ⟨le_refl mid, (Nat.sub_self mid).symm⟩, bind_ok_left,
          (tryMulU_ok_iff 0 100 0).mpr ⟨by decide, rfl⟩, bind_ok_left]
      simp
    unfold getNewMarketPriceCore
    rw [hmid, bind_ok_left]
    show Except.bind (accumTwap ts s' mid nowTs) _ = _
    rw [hbpc, bind_ok_left]
    show Except.bind (marketCandidate (.error e) ts.isOpenTwap bpc nowTs ts.cumulativeTicks mid) _ = _
    unfold marketCandidate
    rw [hopen]
    show Except.bind (Except.ok mid) _ = _
    rw [bind_ok_left]
    show Except.bind (adoptMarketPrice mid mid) _ = _
    rw [hadopt, bind_ok_left]

/-- Witness for C9: the record with `valid_slot = current_slot - 5` is
rejected as stale; with the oracle failing the engine continues with the
TWAP quotient when the TWAP is open (here `10^13 / 100 = 10^11`, equal to
the constant mid price) and with the mid price when it is closed. -/
theorem getPythPrice_staleness_and_fallback_witness :
    getPythPrice stalePyth oracleClock = .error .invalidOracleConfig ∧
    getNewMarketPriceCore twapTs examplePool (.error .invalidOracleConfig) 100 =
      (Except.bind (tryDivU 10000000000000 (wsub64 100 twapTs.cumulativeTicks)) fun market =>
        Except.bind (adoptMarketPrice (100 * WAD) market) fun adopted =>
          Except.ok (adopted, 10000000000000)) ∧
    getNewMarketPriceCore noTwapTs examplePool (.error .invalidOracleConfig) 100 =
      .ok (100 * WAD, 0) :=
  ⟨(getPythPrice_staleness_and_fallback.1 stalePyth oracleClock
      (by decide) (by decide) (by decide) (by decide)).mpr (by decide),
   getPythPrice_staleness_and_fallback.2.1 twapTs examplePool 100 .invalidOracleConfig
     examplePool (100 * WAD) 10000000000000 rfl (by decide) (by decide),
   getPythPrice_staleness_and_fallback.2.2 noTwapTs examplePool 100 .invalidOracleConfig
     examplePool (100 * WAD) 0 rfl (by decide) (by decide)⟩
